import Mathlib

/-!
Shallow embedding of `django_extensions/management/commands/shell_plus.py`.

The module defines:
  * a module-level watchdog `Observer` thread together with the
    `kill_observer_thread` cleanup registered with `atexit` (lines 13-35);
  * `Command.handle_noargs`, which validates the autoreload configuration,
    builds the `imported_objects` namespace, optionally starts the filesystem
    watcher, and dispatches to one of the front-end launchers
    `run_notebook` / `run_plain` / `run_bpython` / `run_ipython`
    (lines 63-194).

The embedding models each launcher as a function from an environment
(describing CLI flags, Django settings, and which optional dependencies are
importable) to a trace of observable events plus an optional Python
exception.  Machine behaviour that the source leaves to CPython
(`ImportError` on a missing module, `atexit` hooks running at interpreter
shutdown, thread liveness) is modelled explicitly.
-/

/-- The four interactive front-ends of shell_plus. -/
inductive FrontEnd
  | notebook
  | plain
  | ipython
  | bpython
deriving DecidableEq, Repr

/-- The Python exceptions that the embedded code can raise or swallow:
`ImportError` (a module is missing), `NameError` (swallowed around the
PYTHONSTARTUP script), `CommandError` (Django configuration error, carries
its message), and a catch-all for any other exception. -/
inductive PyExc
  | importError
  | nameError
  | commandError (msg : String)
  | otherError
deriving DecidableEq, Repr

/-- Observable events of one `handle_noargs` run, in program order.
`importObjects n` records the allocation of the `imported_objects` mapping
(with object identity `n`); `attempt fe` records that the launcher function
of front-end `fe` was invoked; `launched fe n` records that the front-end
actually entered its blocking interactive session holding a reference to
namespace object `n`; `watcherScheduled n` records that a
`ReloaderEventHandler` was built with `shell_globals` bound to namespace
object `n` and scheduled on the observer; `execStartupScript` records that
`execfile(pythonrc)` was called. -/
inductive Event
  | importObjects (nsId : Nat)
  | attempt (fe : FrontEnd)
  | execStartupScript
  | watcherScheduled (nsId : Nat)
  | watcherStarted
  | launched (fe : FrontEnd) (nsId : Nat)
  | printedTraceback
  | printedNoEnvError
deriving DecidableEq, Repr

/-- The environment of one invocation: CLI options (as parsed by optparse:
a `store_true` flag is `false` when absent), Django settings, process
environment, and which optional dependencies are importable.
`pythonrc_raises` is the exception raised by executing the PYTHONSTARTUP
script (`none` if it runs cleanly); it is only consulted when the script is
actually executed. -/
structure Env where
  notebook : Bool
  ipython : Bool
  bpython : Bool
  plain : Bool
  no_pythonrc : Bool
  autoreload : Bool
  /-- The `settings.AUTO_RELOAD_SHELL` value (default `False`). -/
  auto_reload_shell : Bool
  /-- The `os.environ["VIRTUAL_ENV"]` value: `none` when the key is absent. -/
  virtual_env : Option String
  /-- The `settings.PROJECT_ROOT` value: `none` when the attribute is absent
  (the default of `getattr(settings, "PROJECT_ROOT", False)` in the source). -/
  project_root : Option String
  /-- whether `from watchdog.observers import Observer` succeeded
  (`_listener_enabled`). -/
  listener_enabled : Bool
  /-- whether `from IPython import embed` succeeds (IPython at least 0.11). -/
  ipython_embed_available : Bool
  /-- whether `from IPython.Shell import IPShell` succeeds (IPython below 0.11). -/
  ipython_shell_available : Bool
  /-- whether `from IPython.frontend.html.notebook import notebookapp` succeeds. -/
  notebook_available : Bool
  /-- whether `from bpython import embed` succeeds. -/
  bpython_available : Bool
  /-- whether `import readline` succeeds. -/
  readline_available : Bool
  /-- The `os.environ.get("PYTHONSTARTUP")` value: `none` when unset. -/
  pythonstartup : Option String
  /-- whether `os.path.isfile(pythonrc)` holds for that path. -/
  pythonstartup_isfile : Bool
  /-- the exception `execfile(pythonrc)` raises, if any. -/
  pythonrc_raises : Option PyExc
deriving Repr

/-- Lifecycle of the module-level watchdog `Observer()` thread:
constructed but not started (`idle`), started (`running`), or stopped and
joined (`stopped`). -/
inductive ObserverState
  | idle
  | running
  | stopped
deriving DecidableEq, Repr

/-- Semantics of `observer_thread.is_alive()`: a Python thread is alive after `start()`
and before it has terminated (here: been stopped and joined). -/
def is_alive : ObserverState → Bool
  | .running => true
  | _ => false

/-- Lines 27-32: `kill_observer_thread` stops and joins the observer thread,
but only if it is alive; otherwise it does nothing. -/
def kill_observer_thread (s : ObserverState) : ObserverState :=
  if is_alive s then .stopped else s

/-- The cleanup hooks a process can register with `atexit`. -/
inductive ExitHook
  | killObserver
deriving DecidableEq, Repr

/-- Lines 13-35 at module import time: when the watchdog import succeeds,
`atexit.register(kill_observer_thread)` runs; otherwise nothing is
registered. -/
def registered_hooks (listener_enabled : Bool) : List ExitHook :=
  if listener_enabled then [ExitHook.killObserver] else []

/-- Running one registered hook on the observer state. -/
def run_hook : ExitHook → ObserverState → ObserverState
  | .killObserver, s => kill_observer_thread s

/-- Interpreter shutdown: `atexit` runs every registered hook. -/
def run_atexit (hooks : List ExitHook) (s : ObserverState) : ObserverState :=
  hooks.foldl (fun st h => run_hook h st) s

/-- Lines 118-124, `run_notebook`: imports the notebook application
(raising `ImportError` if unavailable) and starts the server holding a
reference to whatever globals IPython gathers.  The notebook server does
not receive `imported_objects`; the launch is recorded without a namespace
event beyond the blocking start. -/
def run_notebook (e : Env) (ns : Nat) : List Event × Option PyExc :=
  if e.notebook_available then ([Event.launched FrontEnd.notebook ns], none)
  else ([], some PyExc.importError)

/-- Lines 143-151 of `run_plain`: the PYTHONSTARTUP handling.  The script is
executed only when `use_pythonrc` holds, the environment variable is set to
a non-empty (truthy) value, and the path is a file; a `NameError` from
`execfile` is swallowed, any other exception propagates. -/
def startup_script (e : Env) (use_pythonrc : Bool) : List Event × Option PyExc :=
  if use_pythonrc then
    match e.pythonstartup with
    | some p =>
      if p.isEmpty then ([], none)
      else if e.pythonstartup_isfile then
        match e.pythonrc_raises with
        | none => ([Event.execStartupScript], none)
        | some PyExc.nameError => ([Event.execStartupScript], none)
        | some exc => ([Event.execStartupScript], some exc)
      else ([], none)
    | none => ([], none)
  else ([], none)

/-- Lines 126-152, `run_plain`: `import code` always succeeds; a missing
`readline` is swallowed (completion is best-effort); then the startup
script runs per `startup_script`; finally `code.interact` enters the
blocking session with `local=imported_objects`. -/
def run_plain (e : Env) (use_pythonrc : Bool) (ns : Nat) : List Event × Option PyExc :=
  match startup_script e use_pythonrc with
  | (evs, none) => (evs ++ [Event.launched FrontEnd.plain ns], none)
  | (evs, some exc) => (evs, some exc)

/-- Lines 154-156, `run_bpython`: `from bpython import embed` raises
`ImportError` when bpython is missing; otherwise `embed(imported_objects)`
blocks. -/
def run_bpython (e : Env) (ns : Nat) : List Event × Option PyExc :=
  if e.bpython_available then ([Event.launched FrontEnd.bpython ns], none)
  else ([], some PyExc.importError)

/-- Lines 158-169, `run_ipython`: try `from IPython import embed`
(IPython at least 0.11); on `ImportError` fall back to the pre-0.11
`IPShell`; if that import also fails the `ImportError` propagates. -/
def run_ipython (e : Env) (ns : Nat) : List Event × Option PyExc :=
  if e.ipython_embed_available then ([Event.launched FrontEnd.ipython ns], none)
  else if e.ipython_shell_available then ([Event.launched FrontEnd.ipython ns], none)
  else ([], some PyExc.importError)

/-- Line 69: live reload is requested by the `--autoreload` flag or the
`AUTO_RELOAD_SHELL` setting. -/
def auto_reload (e : Env) : Bool := e.autoreload || e.auto_reload_shell

/-- Line 75: `os.environ.get("VIRTUAL_ENV", getattr(settings, "PROJECT_ROOT",
False))` — the environment variable wins when the key is present, else the
setting (or the falsy `False` default, here `none`). -/
def autoreload_path (e : Env) : Option String :=
  match e.virtual_env with
  | some v => some v
  | none => e.project_root

/-- Line 76, `if not autoreload_path`: the resolved watch root is falsy when
it is the `False` default or an empty string. -/
def path_unset : Option String → Bool
  | none => true
  | some s => s.isEmpty

/-- The `CommandError` message of line 73 (abbreviated). -/
def watchdog_required_msg : String :=
  "Watchdog is required to use auto reload shell_plus."

/-- The `CommandError` message of lines 77-80 (abbreviated). -/
def project_root_msg : String :=
  "To reload shell_plus automatically, work in a VIRTUALENV or set PROJECT_ROOT."

/-- Lines 82-86, `listen_for_changes`: builds a `ReloaderEventHandler` whose
`shell_globals` is the shared namespace object, schedules it on the
module-level observer, and starts the observer thread. -/
def listen_for_changes (ns : Nat) : List Event × ObserverState :=
  ([Event.watcherScheduled ns, Event.watcherStarted], ObserverState.running)

/-- The result of one `handle_noargs` run: the event trace, the exception
propagating out of the method (if any), and the module-level observer
thread state when the method returns or raises. -/
structure Outcome where
  trace : List Event
  exc : Option PyExc
  observer : ObserverState
deriving Repr

/-- Lines 184-194: the default-mode fallback loop
`for func in (run_ipython, run_bpython, run_plain)` with
`except ImportError: continue` and the `for ... else` arm printing the last
traceback and the "Could not load any interactive Python environment."
error when every candidate raised `ImportError`; any other exception
propagates out of the loop at once. -/
def default_loop (e : Env) (use_pythonrc : Bool) (ns : Nat) :
    List Event × Option PyExc :=
  let r1 := run_ipython e ns
  let evs1 := Event.attempt FrontEnd.ipython :: r1.1
  match r1.2 with
  | none => (evs1, none)
  | some PyExc.importError =>
    let r2 := run_bpython e ns
    let evs2 := evs1 ++ Event.attempt FrontEnd.bpython :: r2.1
    match r2.2 with
    | none => (evs2, none)
    | some PyExc.importError =>
      let r3 := run_plain e use_pythonrc ns
      let evs3 := evs2 ++ Event.attempt FrontEnd.plain :: r3.1
      match r3.2 with
      | none => (evs3, none)
      | some PyExc.importError =>
        (evs3 ++ [Event.printedTraceback, Event.printedNoEnvError], none)
      | some exc => (evs3, some exc)
    | some exc => (evs2, some exc)
  | some exc => (evs1, some exc)

/-- Lines 63-194, `Command.handle_noargs`: resolve options, validate the
autoreload configuration (raising `CommandError` before anything else when
watchdog is missing or no watch root resolves), build the single
`imported_objects` namespace (object identity `0`), then dispatch:
notebook first; otherwise start the watcher when live reload is on, then
plain / ipython / bpython by explicit flag, else the fallback loop. -/
def handle_noargs (e : Env) : Outcome :=
  let use_pythonrc := !e.no_pythonrc
  if auto_reload e && !e.listener_enabled then
    { trace := [], exc := some (PyExc.commandError watchdog_required_msg),
      observer := ObserverState.idle }
  else if auto_reload e && path_unset (autoreload_path e) then
    { trace := [], exc := some (PyExc.commandError project_root_msg),
      observer := ObserverState.idle }
  else
    let ns : Nat := 0
    let evs0 := [Event.importObjects ns]
    if e.notebook then
      let r := run_notebook e ns
      { trace := evs0 ++ Event.attempt FrontEnd.notebook :: r.1, exc := r.2,
        observer := ObserverState.idle }
    else
      let w : List Event × ObserverState :=
        if auto_reload e then listen_for_changes ns
        else ([], ObserverState.idle)
      let r : List Event × Option PyExc :=
        if e.plain then
          let p := run_plain e use_pythonrc ns
          (Event.attempt FrontEnd.plain :: p.1, p.2)
        else if e.ipython then
          let p := run_ipython e ns
          (Event.attempt FrontEnd.ipython :: p.1, p.2)
        else if e.bpython then
          let p := run_bpython e ns
          (Event.attempt FrontEnd.bpython :: p.1, p.2)
        else default_loop e use_pythonrc ns
      { trace := evs0 ++ w.1 ++ r.1, exc := r.2, observer := w.2 }

/-- Interpreter shutdown after a session: the `atexit` hooks registered at
module import run on the observer state the session left behind. -/
def process_exit (e : Env) (o : Outcome) : ObserverState :=
  run_atexit (registered_hooks e.listener_enabled) o.observer

/-- The front-end launchers invoked during a trace, in order. -/
def attempts (t : List Event) : List FrontEnd :=
  t.filterMap fun ev =>
    match ev with
    | Event.attempt fe => some fe
    | _ => none

/-- The autoreload validation of lines 70-80 passes: live reload is off, or
watchdog is importable and a watch root resolves. -/
def reload_config_ok (e : Env) : Bool :=
  !auto_reload e || (e.listener_enabled && !path_unset (autoreload_path e))

/-- A minimal environment: no CLI flags, no relevant settings, no optional
dependency importable, `PYTHONSTARTUP` unset. -/
def env0 : Env :=
  { notebook := false, ipython := false, bpython := false, plain := false,
    no_pythonrc := false, autoreload := false, auto_reload_shell := false,
    virtual_env := none, project_root := none, listener_enabled := false,
    ipython_embed_available := false, ipython_shell_available := false,
    notebook_available := false, bpython_available := false,
    readline_available := false, pythonstartup := none,
    pythonstartup_isfile := false, pythonrc_raises := none }

theorem reload_checks_pass (e : Env) (hok : reload_config_ok e = true) :
    (auto_reload e && !e.listener_enabled) = false ∧
    (auto_reload e && path_unset (autoreload_path e)) = false := by
  unfold reload_config_ok at hok
  cases h : auto_reload e <;> simp [h] at hok ⊢
  exact ⟨hok.1, hok.2⟩

/-- C7: the watcher-thread stop operation `kill_observer_thread` is
idempotent: on a never-started observer it is a no-op (and, being a plain
conditional, cannot raise), and running it twice equals running it once. -/
theorem C7_stop_idempotent :
    kill_observer_thread ObserverState.idle = ObserverState.idle ∧
    ∀ s, kill_observer_thread (kill_observer_thread s) = kill_observer_thread s := by
  refine ⟨rfl, ?_⟩
  intro s
  cases s <;> rfl

/-- C4: with live reload requested, a missing watchdog dependency or an
unresolvable watch root aborts `handle_noargs` with a `CommandError` before
anything happens: the trace is empty (no namespace build, no watcher, no
front-end attempt) and the observer thread is never started. -/
theorem C4_autoreload_failfast (e : Env) (har : auto_reload e = true)
    (hbad : e.listener_enabled = false ∨ path_unset (autoreload_path e) = true) :
    (∃ msg, (handle_noargs e).exc = some (PyExc.commandError msg)) ∧
    (handle_noargs e).trace = [] ∧
    (handle_noargs e).observer = ObserverState.idle := by
  rcases hbad with hb | hb
  · refine ⟨⟨watchdog_required_msg, ?_⟩, ?_, ?_⟩ <;> simp [handle_noargs, har, hb]
  · by_cases hl : e.listener_enabled
    · refine ⟨⟨project_root_msg, ?_⟩, ?_, ?_⟩ <;> simp [handle_noargs, har, hb, hl]
    · refine ⟨⟨watchdog_required_msg, ?_⟩, ?_, ?_⟩ <;>
        simp [handle_noargs, har, hb, eq_false_of_ne_true hl]

theorem C4_autoreload_failfast_witness :
    (∃ msg, (handle_noargs { env0 with autoreload := true }).exc
        = some (PyExc.commandError msg)) ∧
    (handle_noargs { env0 with autoreload := true }).trace = [] ∧
    (handle_noargs { env0 with autoreload := true }).observer = ObserverState.idle :=
  C4_autoreload_failfast { env0 with autoreload := true } rfl (Or.inl rfl)

/-- C10: live reload is driven by `--autoreload` or `AUTO_RELOAD_SHELL`;
with the flag unset, a true setting alone takes the full live-reload path:
missing watchdog or unresolved root fail fast with the respective
`CommandError`, and a valid configuration (outside notebook mode) starts
the watcher. -/
theorem C10_setting_alone_enables (e : Env) (_hflag : e.autoreload = false)
    (hset : e.auto_reload_shell = true) :
    (e.listener_enabled = false →
      (handle_noargs e).exc = some (PyExc.commandError watchdog_required_msg)) ∧
    (e.listener_enabled = true → path_unset (autoreload_path e) = true →
      (handle_noargs e).exc = some (PyExc.commandError project_root_msg)) ∧
    (e.listener_enabled = true → path_unset (autoreload_path e) = false →
      e.notebook = false →
      Event.watcherStarted ∈ (handle_noargs e).trace ∧
      (handle_noargs e).observer = ObserverState.running) := by
  have har : auto_reload e = true := by simp [auto_reload, hset]
  refine ⟨?_, ?_, ?_⟩
  · intro hl
    simp [handle_noargs, har, hl]
  · intro hl hp
    simp [handle_noargs, har, hl, hp]
  · intro hl hp hnb
    constructor <;>
      simp [handle_noargs, har, hl, hp, hnb, listen_for_changes]

/-- Environment with `--autoreload` unset, `AUTO_RELOAD_SHELL = True`, watchdog importable,
watch root resolved from `VIRTUAL_ENV`, IPython available. -/
def envC10 : Env :=
  { env0 with auto_reload_shell := true, listener_enabled := true,
              virtual_env := some "/venv", ipython_embed_available := true }

theorem C10_setting_alone_enables_witness :
    (handle_noargs { env0 with auto_reload_shell := true }).exc
      = some (PyExc.commandError watchdog_required_msg) ∧
    (Event.watcherStarted ∈ (handle_noargs envC10).trace ∧
     (handle_noargs envC10).observer = ObserverState.running) :=
  ⟨(C10_setting_alone_enables { env0 with auto_reload_shell := true }
      rfl rfl).1 rfl,
   (C10_setting_alone_enables envC10 rfl rfl).2.2 rfl (by decide) rfl⟩

theorem startup_script_sub (e : Env) (u : Bool) :
    ∀ ev ∈ (startup_script e u).1, ev = Event.execStartupScript := by
  intro ev h
  unfold startup_script at h
  repeat' split at h
  all_goals simp_all

theorem run_plain_sub (e : Env) (u : Bool) (n : Nat) :
    ∀ ev ∈ (run_plain e u n).1,
      ev = Event.execStartupScript ∨ ev = Event.launched FrontEnd.plain n := by
  intro ev h
  unfold run_plain at h
  split at h
  · rename_i evs heq
    rcases List.mem_append.mp h with h1 | h1
    · exact Or.inl (startup_script_sub e u ev (by rw [heq]; exact h1))
    · exact Or.inr (List.mem_singleton.mp h1)
  · rename_i evs exc heq
    exact Or.inl (startup_script_sub e u ev (by rw [heq]; exact h))

theorem run_plain_of_startup_ok (e : Env) (u : Bool) (n : Nat)
    (h : (startup_script e u).2 = none) :
    run_plain e u n =
      ((startup_script e u).1 ++ [Event.launched FrontEnd.plain n], none) := by
  unfold run_plain
  rcases hs : startup_script e u with ⟨evs, r⟩
  rw [hs] at h
  simp only at h
  subst h
  simp [hs]

theorem run_plain_of_startup_exc (e : Env) (u : Bool) (n : Nat) (x : PyExc)
    (h : (startup_script e u).2 = some x) :
    run_plain e u n = ((startup_script e u).1, some x) := by
  unfold run_plain
  rcases hs : startup_script e u with ⟨evs, r⟩
  rw [hs] at h
  simp only at h
  subst h
  simp [hs]

theorem default_loop_ipython_first (e : Env) (u : Bool) (n : Nat)
    (h : e.ipython_embed_available = true ∨ e.ipython_shell_available = true) :
    default_loop e u n =
      ([Event.attempt FrontEnd.ipython, Event.launched FrontEnd.ipython n],
       none) := by
  unfold default_loop run_ipython
  rcases h with h | h
  · simp [h]
  · by_cases h2 : e.ipython_embed_available <;> simp [h, h2]

theorem default_loop_bpython_second (e : Env) (u : Bool) (n : Nat)
    (hie : e.ipython_embed_available = false)
    (his : e.ipython_shell_available = false)
    (hbp : e.bpython_available = true) :
    default_loop e u n =
      ([Event.attempt FrontEnd.ipython, Event.attempt FrontEnd.bpython,
        Event.launched FrontEnd.bpython n], none) := by
  unfold default_loop run_ipython run_bpython
  simp [hie, his, hbp]

theorem default_loop_plain_last (e : Env) (u : Bool) (n : Nat)
    (hie : e.ipython_embed_available = false)
    (his : e.ipython_shell_available = false)
    (hbp : e.bpython_available = false) :
    default_loop e u n =
      ((Event.attempt FrontEnd.ipython :: Event.attempt FrontEnd.bpython ::
          Event.attempt FrontEnd.plain :: (run_plain e u n).1) ++
        (if (run_plain e u n).2 = some PyExc.importError then
          [Event.printedTraceback, Event.printedNoEnvError] else []),
       if (run_plain e u n).2 = some PyExc.importError then none
       else (run_plain e u n).2) := by
  unfold default_loop run_ipython run_bpython
  rcases hr : run_plain e u n with ⟨pevs, pres⟩
  rcases pres with _ | px
  · simp [hie, his, hbp, hr]
  · rcases px <;> simp [hie, his, hbp, hr]

theorem handle_noargs_notebook (e : Env) (hnb : e.notebook = true)
    (hok : reload_config_ok e = true) :
    handle_noargs e =
      { trace := Event.importObjects 0 ::
          Event.attempt FrontEnd.notebook :: (run_notebook e 0).1,
        exc := (run_notebook e 0).2,
        observer := ObserverState.idle } := by
  obtain ⟨h1, h2⟩ := reload_checks_pass e hok
  simp [handle_noargs, h1, h2, hnb]

theorem handle_noargs_explicit (e : Env) (hnb : e.notebook = false)
    (hok : reload_config_ok e = true) :
    handle_noargs e =
      { trace := Event.importObjects 0 ::
          ((if auto_reload e then
              [Event.watcherScheduled 0, Event.watcherStarted] else []) ++
            (if e.plain then
              Event.attempt FrontEnd.plain :: (run_plain e (!e.no_pythonrc) 0).1
             else if e.ipython then
              Event.attempt FrontEnd.ipython :: (run_ipython e 0).1
             else if e.bpython then
              Event.attempt FrontEnd.bpython :: (run_bpython e 0).1
             else (default_loop e (!e.no_pythonrc) 0).1)),
        exc :=
          (if e.plain then (run_plain e (!e.no_pythonrc) 0).2
           else if e.ipython then (run_ipython e 0).2
           else if e.bpython then (run_bpython e 0).2
           else (default_loop e (!e.no_pythonrc) 0).2),
        observer :=
          if auto_reload e then ObserverState.running
          else ObserverState.idle } := by
  obtain ⟨h1, h2⟩ := reload_checks_pass e hok
  by_cases har : auto_reload e
  · rw [har] at h1 h2
    simp only [Bool.true_and, Bool.not_eq_false'] at h1
    simp only [Bool.true_and] at h2
    by_cases hp : e.plain <;>
      by_cases hi : e.ipython <;>
        by_cases hb : e.bpython <;>
          simp [handle_noargs, h1, h2, hnb, har, hp, hi, hb, listen_for_changes]
  · by_cases hp : e.plain <;>
      by_cases hi : e.ipython <;>
        by_cases hb : e.bpython <;>
          simp [handle_noargs, h1, h2, hnb, eq_false_of_ne_true har, hp, hi, hb,
            listen_for_changes]

theorem attempts_run_plain (e : Env) (u : Bool) (n : Nat) :
    attempts (run_plain e u n).1 = [] := by
  unfold attempts
  rw [List.filterMap_eq_nil_iff]
  intro ev hev
  rcases run_plain_sub e u n ev hev with h | h <;> subst h <;> rfl

theorem attempts_run_ipython (e : Env) (n : Nat) :
    attempts (run_ipython e n).1 = [] := by
  by_cases h1 : e.ipython_embed_available <;>
    by_cases h2 : e.ipython_shell_available <;>
      simp [run_ipython, attempts, h1, h2]

theorem attempts_run_bpython (e : Env) (n : Nat) :
    attempts (run_bpython e n).1 = [] := by
  by_cases h : e.bpython_available <;> simp [run_bpython, attempts, h]

theorem attempts_run_notebook (e : Env) (n : Nat) :
    attempts (run_notebook e n).1 = [] := by
  by_cases h : e.notebook_available <;> simp [run_notebook, attempts, h]

theorem launched_not_mem_startup (e : Env) (u : Bool) (fe : FrontEnd) (n : Nat) :
    Event.launched fe n ∉ (startup_script e u).1 := by
  intro h
  exact absurd (startup_script_sub e u _ h) (by simp)

/-- Explicit `--bpython` with bpython not importable. -/
def envC1x : Env := { env0 with bpython := true }

/-- C1 as stated fails: with `--bpython` explicitly requested and bpython
missing, `handle_noargs` propagates the raw `ImportError` from
`from bpython import embed`; it does not raise a `CommandError`
(the configuration-error type of this code) and offers no installation hint. -/
theorem C1_counterexample :
    (handle_noargs envC1x).exc = some PyExc.importError ∧
    ∀ msg, (handle_noargs envC1x).exc ≠ some (PyExc.commandError msg) := by
  have h : (handle_noargs envC1x).exc = some PyExc.importError := by decide
  refine ⟨h, fun msg hc => ?_⟩
  rw [h] at hc
  simp at hc

/-- C1 amended: for an explicitly requested rich front-end (ipython or
bpython) whose runtime dependency is missing, `handle_noargs` fails by
letting the `ImportError` of that dependency propagate (not by a
`CommandError`/ConfigurationError with an installation hint), and no other
front-end candidate is ever attempted or launched; the plain front-end has
no missing-dependency mode. -/
theorem C1_explicit_no_silent_fallback (e : Env) (hnb : e.notebook = false)
    (hok : reload_config_ok e = true)
    (hcase :
      (e.plain = false ∧ e.ipython = true ∧ e.ipython_embed_available = false ∧
        e.ipython_shell_available = false) ∨
      (e.plain = false ∧ e.ipython = false ∧ e.bpython = true ∧
        e.bpython_available = false)) :
    (handle_noargs e).exc = some PyExc.importError ∧
    attempts (handle_noargs e).trace =
      [if e.ipython then FrontEnd.ipython else FrontEnd.bpython] ∧
    ∀ fe n, Event.launched fe n ∉ (handle_noargs e).trace := by
  rw [handle_noargs_explicit e hnb hok]
  rcases hcase with ⟨hp, hi, h3, h4⟩ | ⟨hp, hi, hb, h4⟩
  · by_cases har : auto_reload e <;>
      simp [attempts, run_ipython, hp, hi, h3, h4, har]
  · by_cases har : auto_reload e <;>
      simp [attempts, run_bpython, hp, hi, hb, h4, har]

/-- Explicit `--ipython` with IPython not importable in either form. -/
def envC1a : Env := { env0 with ipython := true }

theorem C1_explicit_no_silent_fallback_witness :
    (handle_noargs envC1a).exc = some PyExc.importError ∧
    attempts (handle_noargs envC1a).trace = [FrontEnd.ipython] ∧
    Event.launched FrontEnd.ipython 0 ∉ (handle_noargs envC1a).trace := by
  obtain ⟨a, b, c⟩ :=
    C1_explicit_no_silent_fallback envC1a rfl rfl (Or.inl ⟨rfl, rfl, rfl, rfl⟩)
  exact ⟨a, by simpa [envC1a, env0] using b, c FrontEnd.ipython 0⟩

/-- C2: in default mode the candidates are attempted in the fixed order
ipython, bpython, plain; a candidate whose launch raises `ImportError`
because its dependency is absent is skipped and the next one tried; when
both rich front-ends are unavailable (and the startup script does not
itself abort the plain launch) the plain front-end is launched exactly
once. -/
theorem C2_default_priority_fallback (e : Env) (hnb : e.notebook = false)
    (hp : e.plain = false) (hi : e.ipython = false) (hb : e.bpython = false)
    (hok : reload_config_ok e = true) :
    attempts (handle_noargs e).trace =
      (if e.ipython_embed_available || e.ipython_shell_available then
        [FrontEnd.ipython]
       else if e.bpython_available then [FrontEnd.ipython, FrontEnd.bpython]
       else [FrontEnd.ipython, FrontEnd.bpython, FrontEnd.plain]) ∧
    (e.ipython_embed_available = false → e.ipython_shell_available = false →
      e.bpython_available = false →
      (startup_script e (!e.no_pythonrc)).2 = none →
      (handle_noargs e).trace.count (Event.launched FrontEnd.plain 0) = 1) := by
  rw [handle_noargs_explicit e hnb hok]
  simp only [hp, hi, hb, if_false, Bool.false_eq_true]
  constructor
  · by_cases h1 : e.ipython_embed_available
    · rw [default_loop_ipython_first e (!e.no_pythonrc) 0 (Or.inl h1)]
      by_cases har : auto_reload e <;> simp [attempts, h1, har]
    · by_cases h2 : e.ipython_shell_available
      · rw [default_loop_ipython_first e (!e.no_pythonrc) 0 (Or.inr h2)]
        by_cases har : auto_reload e <;> simp [attempts, h1, h2, har]
      · by_cases h3 : e.bpython_available
        · rw [default_loop_bpython_second e (!e.no_pythonrc) 0
            (eq_false_of_ne_true h1) (eq_false_of_ne_true h2) h3]
          by_cases har : auto_reload e <;> simp [attempts, h1, h2, h3, har]
        · rw [default_loop_plain_last e (!e.no_pythonrc) 0
            (eq_false_of_ne_true h1) (eq_false_of_ne_true h2)
            (eq_false_of_ne_true h3)]
          by_cases har : auto_reload e <;>
            by_cases h4 : (run_plain e (!e.no_pythonrc) 0).2 = some PyExc.importError <;>
              simp [attempts, h1, h2, h3, har, h4] <;>
              (intro a ha
               rcases run_plain_sub e (!e.no_pythonrc) 0 a ha with h | h <;>
                 subst h <;> rfl)
  · intro h1 h2 h3 h4
    rw [default_loop_plain_last e (!e.no_pythonrc) 0 h1 h2 h3,
      run_plain_of_startup_ok e (!e.no_pythonrc) 0 h4]
    have hns : (startup_script e (!e.no_pythonrc)).1.count
        (Event.launched FrontEnd.plain 0) = 0 :=
      List.count_eq_zero.mpr (launched_not_mem_startup e (!e.no_pythonrc) _ 0)
    by_cases har : auto_reload e <;>
      simp [har, List.count_append, List.count_cons, hns]

theorem C2_default_priority_fallback_witness :
    attempts (handle_noargs env0).trace =
      [FrontEnd.ipython, FrontEnd.bpython, FrontEnd.plain] ∧
    (handle_noargs env0).trace.count (Event.launched FrontEnd.plain 0) = 1 := by
  obtain ⟨a, b⟩ := C2_default_priority_fallback env0 rfl rfl rfl rfl rfl
  exact ⟨by simpa [env0] using a, b rfl rfl rfl rfl⟩

/-- C9: with several explicit flags set at once, exactly one launcher is
invoked, chosen by the fixed precedence notebook, then plain, then ipython,
then bpython; in notebook mode the live-reload watcher is never started
even when autoreload was requested and its configuration validated. -/
theorem C9_flag_precedence (e : Env) (hok : reload_config_ok e = true) :
    (e.notebook = true →
      attempts (handle_noargs e).trace = [FrontEnd.notebook] ∧
      Event.watcherStarted ∉ (handle_noargs e).trace ∧
      (handle_noargs e).observer = ObserverState.idle ∧
      (e.notebook_available = true →
        (handle_noargs e).trace.count (Event.launched FrontEnd.notebook 0) = 1)) ∧
    (e.notebook = false → e.plain = true →
      attempts (handle_noargs e).trace = [FrontEnd.plain]) ∧
    (e.notebook = false → e.plain = false → e.ipython = true →
      attempts (handle_noargs e).trace = [FrontEnd.ipython]) ∧
    (e.notebook = false → e.plain = false → e.ipython = false →
      e.bpython = true →
      attempts (handle_noargs e).trace = [FrontEnd.bpython]) := by
  refine ⟨?_, ?_, ?_, ?_⟩
  · intro hnb
    rw [handle_noargs_notebook e hnb hok]
    by_cases hav : e.notebook_available <;>
      simp [attempts, run_notebook, hav, List.count_cons]
  · intro hnb hp
    rw [handle_noargs_explicit e hnb hok]
    by_cases har : auto_reload e <;>
      simp [hp, har, attempts] <;>
      (intro a ha
       rcases run_plain_sub e (!e.no_pythonrc) 0 a ha with h | h <;>
         subst h <;> rfl)
  · intro hnb hp hi
    rw [handle_noargs_explicit e hnb hok]
    by_cases har : auto_reload e <;>
      by_cases h1 : e.ipython_embed_available <;>
        by_cases h2 : e.ipython_shell_available <;>
          simp [hp, hi, har, h1, h2, attempts, run_ipython]
  · intro hnb hp hi hb
    rw [handle_noargs_explicit e hnb hok]
    by_cases har : auto_reload e <;>
      by_cases h1 : e.bpython_available <;>
        simp [hp, hi, hb, har, h1, attempts, run_bpython]

/-- Environment with `--notebook` plus `--plain` plus `--autoreload`, valid reload
configuration, notebook importable. -/
def envC9 : Env :=
  { env0 with notebook := true, plain := true, notebook_available := true,
              autoreload := true, listener_enabled := true,
              virtual_env := some "/venv" }

theorem C9_flag_precedence_witness :
    attempts (handle_noargs envC9).trace = [FrontEnd.notebook] ∧
    Event.watcherStarted ∉ (handle_noargs envC9).trace ∧
    (handle_noargs envC9).observer = ObserverState.idle ∧
    (handle_noargs envC9).trace.count (Event.launched FrontEnd.notebook 0) = 1 := by
  obtain ⟨a, b, c, d⟩ := (C9_flag_precedence envC9 (by decide)).1 rfl
  exact ⟨a, b, c, d rfl⟩

/-- C3: with live reload enabled (and validated), the watcher is scheduled
and started strictly before any front-end launch event: the trace begins
with the namespace build, the handler scheduling, and the observer start,
and every launch event lies in the remainder; the `atexit`-registered
`kill_observer_thread` hook is in place, and running the exit hooks on the
session final state stops (stop then join) the still-running observer,
whatever way the interactive session ended. -/
theorem C3_watcher_before_repl_and_cleanup (e : Env) (hnb : e.notebook = false)
    (har : auto_reload e = true) (hl : e.listener_enabled = true)
    (hroot : path_unset (autoreload_path e) = false) :
    (∃ rest, (handle_noargs e).trace =
        Event.importObjects 0 :: Event.watcherScheduled 0 ::
          Event.watcherStarted :: rest ∧
        ∀ fe n, Event.launched fe n ∈ (handle_noargs e).trace →
          Event.launched fe n ∈ rest) ∧
    registered_hooks e.listener_enabled = [ExitHook.killObserver] ∧
    (handle_noargs e).observer = ObserverState.running ∧
    process_exit e (handle_noargs e) = ObserverState.stopped := by
  have hok : reload_config_ok e = true := by
    simp [reload_config_ok, har, hl, hroot]
  rw [handle_noargs_explicit e hnb hok]
  simp only [har, if_true]
  refine ⟨⟨_, rfl, fun fe n hmem => by simpa using hmem⟩, ?_, ?_, ?_⟩
  · simp [registered_hooks, hl]
  · simp
  · simp [process_exit, registered_hooks, hl, run_atexit, run_hook,
      kill_observer_thread, is_alive]

/-- Environment with `--autoreload`, watchdog importable and `PROJECT_ROOT` set; all
front-end dependencies missing, so the plain front-end ends up launched. -/
def envC3 : Env :=
  { env0 with autoreload := true, listener_enabled := true,
              project_root := some "/proj" }

theorem C3_watcher_before_repl_and_cleanup_witness :
    (∃ rest, (handle_noargs envC3).trace =
        Event.importObjects 0 :: Event.watcherScheduled 0 ::
          Event.watcherStarted :: rest) ∧
    (handle_noargs envC3).observer = ObserverState.running ∧
    process_exit envC3 (handle_noargs envC3) = ObserverState.stopped := by
  obtain ⟨⟨rest, hr, _⟩, _, ho, hx⟩ :=
    C3_watcher_before_repl_and_cleanup envC3 rfl rfl rfl (by decide)
  exact ⟨⟨rest, hr⟩, ho, hx⟩

/-- C5: during a plain launch with the startup script enabled
(`use_pythonrc` true), `execfile` runs exactly when `PYTHONSTARTUP` is set
to a truthy value naming an existing file; a `NameError` raised by the
script is swallowed and the launch proceeds to `code.interact`; any other
exception raised by the script propagates and aborts the launch. -/
theorem C5_startup_script_policy (e : Env) (n : Nat) :
    (Event.execStartupScript ∈ (run_plain e true n).1 ↔
      ((∃ p, e.pythonstartup = some p ∧ p.isEmpty = false) ∧
        e.pythonstartup_isfile = true)) ∧
    (e.pythonrc_raises = some PyExc.nameError →
      (run_plain e true n).2 = none ∧
      Event.launched FrontEnd.plain n ∈ (run_plain e true n).1) ∧
    (∀ x, x ≠ PyExc.nameError → e.pythonrc_raises = some x →
      (∃ p, e.pythonstartup = some p ∧ p.isEmpty = false) →
      e.pythonstartup_isfile = true →
      (run_plain e true n).2 = some x ∧
      Event.launched FrontEnd.plain n ∉ (run_plain e true n).1) := by
  rcases hps : e.pythonstartup with _ | p
  · refine ⟨?_, ?_, ?_⟩
    · simp [run_plain, startup_script, hps]
    · intro hnr
      simp [run_plain, startup_script, hps]
    · rintro x hx hr ⟨q, hq, hq2⟩ hf
      cases hq
  · by_cases hemp : p.isEmpty
    · refine ⟨?_, ?_, ?_⟩
      · simp [run_plain, startup_script, hps, hemp]
      · intro hnr
        simp [run_plain, startup_script, hps, hemp]
      · rintro x hx hr ⟨q, hq, hq2⟩ hf
        injection hq with hq
        subst hq
        rw [hemp] at hq2
        cases hq2
    · by_cases hf : e.pythonstartup_isfile
      · have hemp2 : p.isEmpty = false := eq_false_of_ne_true hemp
        refine ⟨?_, ?_, ?_⟩
        · rcases hraise : e.pythonrc_raises with _ | x
          · simp [run_plain, startup_script, hps, hemp2, hf, hraise]
          · rcases x <;>
              simp [run_plain, startup_script, hps, hemp2, hf, hraise]
        · intro hnr
          simp [run_plain, startup_script, hps, hemp2, hf, hnr]
        · rintro x hx hr _ _
          rcases x <;> simp_all [run_plain, startup_script, hps, hemp2, hf]
      · have hf2 : e.pythonstartup_isfile = false := eq_false_of_ne_true hf
        refine ⟨?_, ?_, ?_⟩
        · simp [run_plain, startup_script, hps, hemp, hf2]
        · intro hnr
          simp [run_plain, startup_script, hps, hemp, hf2]
        · rintro x hx hr hset hfile
          rw [hfile] at hf2
          cases hf2

/-- Environment where `PYTHONSTARTUP` names an existing file whose execution raises
`NameError`. -/
def envC5 : Env :=
  { env0 with pythonstartup := some "/home/u/.pythonrc.py",
              pythonstartup_isfile := true,
              pythonrc_raises := some PyExc.nameError }

/-- Like `envC5` but the script raises an exception other than
`NameError`. -/
def envC5b : Env :=
  { envC5 with pythonrc_raises := some PyExc.otherError }

theorem C5_startup_script_policy_witness :
    (Event.execStartupScript ∈ (run_plain envC5 true 0).1 ∧
     (run_plain envC5 true 0).2 = none ∧
     Event.launched FrontEnd.plain 0 ∈ (run_plain envC5 true 0).1) ∧
    ((run_plain envC5b true 0).2 = some PyExc.otherError ∧
     Event.launched FrontEnd.plain 0 ∉ (run_plain envC5b true 0).1) := by
  obtain ⟨i1, s1, _⟩ := C5_startup_script_policy envC5 0
  obtain ⟨_, _, p2⟩ := C5_startup_script_policy envC5b 0
  refine ⟨⟨?_, (s1 rfl).1, (s1 rfl).2⟩, ?_⟩
  · exact i1.mpr ⟨⟨"/home/u/.pythonrc.py", rfl, by decide⟩, rfl⟩
  · exact p2 PyExc.otherError (by decide) rfl
      ⟨"/home/u/.pythonrc.py", rfl, by decide⟩ rfl

/-- The shared live namespace object.  Modelled from the spec:
`django_extensions.management.shells.ReloaderEventHandler` (not under
`src/`) receives this object as `shell_globals` and reloads names by
mutating the mapping in place; `objId` stands for CPython object identity
and `entries` for the contents of the mapping. -/
structure NamespaceObj where
  objId : Nat
  entries : String → Option Nat

/-- Modelled from the spec: an in-place rebinding of one name in the shared
namespace replaces the bound value inside the same mapping object; the
object identity is untouched, the mapping is never replaced wholesale. -/
def rebind (ns : NamespaceObj) (nm : String) (v : Nat) : NamespaceObj :=
  { ns with entries := fun s => if s = nm then some v else ns.entries s }

/-- Every event that can follow the head `importObjects 0` of a
`handle_noargs` trace: no further namespace allocation occurs, and every
event that references a namespace references object `0`. -/
def tail_event_ok : Event → Prop
  | Event.importObjects _ => False
  | Event.watcherScheduled n => n = 0
  | Event.launched _ n => n = 0
  | _ => True

theorem default_loop_sub (e : Env) (u : Bool) (n : Nat) :
    ∀ ev ∈ (default_loop e u n).1,
      ev = Event.attempt FrontEnd.ipython ∨
      ev = Event.attempt FrontEnd.bpython ∨
      ev = Event.attempt FrontEnd.plain ∨
      ev = Event.execStartupScript ∨
      ev = Event.launched FrontEnd.ipython n ∨
      ev = Event.launched FrontEnd.bpython n ∨
      ev = Event.launched FrontEnd.plain n ∨
      ev = Event.printedTraceback ∨
      ev = Event.printedNoEnvError := by
  intro ev hev
  by_cases h1 : e.ipython_embed_available
  · rw [default_loop_ipython_first e u n (Or.inl h1)] at hev
    simp at hev
    tauto
  · by_cases h2 : e.ipython_shell_available
    · rw [default_loop_ipython_first e u n (Or.inr h2)] at hev
      simp at hev
      tauto
    · by_cases h3 : e.bpython_available
      · rw [default_loop_bpython_second e u n (eq_false_of_ne_true h1)
          (eq_false_of_ne_true h2) h3] at hev
        simp at hev
        tauto
      · rw [default_loop_plain_last e u n (eq_false_of_ne_true h1)
          (eq_false_of_ne_true h2) (eq_false_of_ne_true h3)] at hev
        rcases List.mem_append.mp hev with hm | hm
        · simp only [List.mem_cons] at hm
          rcases hm with h | h | h | hm
          · tauto
          · tauto
          · tauto
          · rcases run_plain_sub e u n ev hm with h | h <;> tauto
        · by_cases h4 : (run_plain e u n).2 = some PyExc.importError <;>
            simp [h4] at hm <;> tauto

theorem handle_noargs_trace_shape (e : Env) :
    (handle_noargs e).trace = [] ∨
    ∃ rest, (handle_noargs e).trace = Event.importObjects 0 :: rest ∧
      ∀ ev ∈ rest, tail_event_ok ev := by
  by_cases hok : reload_config_ok e = true
  · right
    by_cases hnb : e.notebook
    · rw [handle_noargs_notebook e hnb hok]
      refine ⟨_, rfl, ?_⟩
      intro ev hev
      by_cases hav : e.notebook_available
      · simp [run_notebook, hav] at hev
        rcases hev with h | h <;> subst h <;> trivial
      · simp [run_notebook, hav] at hev
        subst hev
        trivial
    · rw [handle_noargs_explicit e (eq_false_of_ne_true hnb) hok]
      refine ⟨_, rfl, ?_⟩
      intro ev hev
      rcases List.mem_append.mp hev with hw | hx
      · by_cases har : auto_reload e <;> simp [har] at hw
        rcases hw with h | h <;> subst h <;> trivial
      · by_cases hp : e.plain
        · simp only [hp, if_true] at hx
          rcases List.mem_cons.mp hx with h | h
          · subst h; trivial
          · rcases run_plain_sub e (!e.no_pythonrc) 0 ev h with h2 | h2 <;>
              subst h2 <;> trivial
        · simp only [hp, Bool.false_eq_true, if_false] at hx
          by_cases hi : e.ipython
          · simp only [hi, if_true] at hx
            rcases List.mem_cons.mp hx with h | h
            · subst h; trivial
            · by_cases h1 : e.ipython_embed_available <;>
                by_cases h2 : e.ipython_shell_available <;>
                  simp [run_ipython, h1, h2] at h <;> subst h <;> trivial
          · simp only [hi, Bool.false_eq_true, if_false] at hx
            by_cases hb : e.bpython
            · simp only [hb, if_true] at hx
              rcases List.mem_cons.mp hx with h | h
              · subst h; trivial
              · by_cases h1 : e.bpython_available <;>
                  simp [run_bpython, h1] at h <;> subst h <;> trivial
            · simp only [hb, Bool.false_eq_true, if_false] at hx
              rcases default_loop_sub e (!e.no_pythonrc) 0 ev hx with
                h | h | h | h | h | h | h | h | h <;> subst h <;> trivial
  · left
    have hbad : auto_reload e = true ∧
        (e.listener_enabled = false ∨
          path_unset (autoreload_path e) = true) := by
      rcases h1 : auto_reload e <;>
        rcases h2 : e.listener_enabled <;>
          rcases h3 : path_unset (autoreload_path e) <;>
            simp [reload_config_ok, h1, h2, h3] at hok ⊢
    rcases hbad with ⟨har, hb | hb⟩
    · simp [handle_noargs, har, hb]
    · by_cases hl : e.listener_enabled
      · simp [handle_noargs, har, hb, hl]
      · simp [handle_noargs, har, hb, eq_false_of_ne_true hl]

/-- C6: exactly one namespace mapping exists per session: `imported_objects`
(object `0`) is allocated once, every `ReloaderEventHandler` wiring and
every front-end launch in the trace references that same object, and a
reload rebinds names inside the mapping without changing its identity. -/
theorem C6_single_namespace (e : Env) :
    (handle_noargs e).trace.count (Event.importObjects 0) ≤ 1 ∧
    (∀ n, Event.importObjects n ∈ (handle_noargs e).trace → n = 0) ∧
    (∀ n, Event.watcherScheduled n ∈ (handle_noargs e).trace →
      Event.importObjects n ∈ (handle_noargs e).trace) ∧
    (∀ fe n, Event.launched fe n ∈ (handle_noargs e).trace →
      Event.importObjects n ∈ (handle_noargs e).trace) ∧
    (∀ ns nm v, (rebind ns nm v).objId = ns.objId) := by
  rcases handle_noargs_trace_shape e with h | ⟨rest, h, hr⟩
  · rw [h]
    exact ⟨by simp, by simp, by simp, by simp, fun ns nm v => rfl⟩
  · rw [h]
    have himp : ∀ n, Event.importObjects n ∉ rest := by
      intro n hn
      have h2 := hr _ hn
      simp [tail_event_ok] at h2
    refine ⟨?_, ?_, ?_, ?_, fun ns nm v => rfl⟩
    · simp [List.count_cons, List.count_eq_zero.mpr (himp 0)]
    · intro n hn
      rcases List.mem_cons.mp hn with h2 | h2
      · injection h2 with h2
      · exact absurd h2 (himp n)
    · intro n hn
      rcases List.mem_cons.mp hn with h2 | h2
      · exact Event.noConfusion h2
      · have h3 := hr _ h2
        simp only [tail_event_ok] at h3
        subst h3
        exact List.mem_cons_self _ _
    · intro fe n hn
      rcases List.mem_cons.mp hn with h2 | h2
      · exact Event.noConfusion h2
      · have h3 := hr _ h2
        simp only [tail_event_ok] at h3
        subst h3
        exact List.mem_cons_self _ _

/-- Live reload on with a virtualenv watch root plus a working IPython. -/
def envC6 : Env :=
  { env0 with autoreload := true, listener_enabled := true,
              virtual_env := some "/venv", ipython_embed_available := true }

theorem C6_single_namespace_witness :
    (handle_noargs envC6).trace.count (Event.importObjects 0) ≤ 1 ∧
    Event.importObjects 0 ∈ (handle_noargs envC6).trace ∧
    (rebind ⟨7, fun _ => none⟩ "User" 2).objId = 7 := by
  obtain ⟨hc, _, hw, _, hrb⟩ := C6_single_namespace envC6
  exact ⟨hc, hw 0 (by decide), hrb _ "User" 2⟩

theorem printed_not_mem_run_plain (e : Env) (u : Bool) (n : Nat) :
    Event.printedNoEnvError ∉ (run_plain e u n).1 := by
  intro h
  rcases run_plain_sub e u n _ h with h2 | h2 <;> exact Event.noConfusion h2

/-- C8: in default mode, the full diagnostic traceback of the last attempt
followed by the final "could not load any interactive Python environment"
error is printed, without raising, exactly when the launch of every candidate
raised `ImportError` (both rich front-ends unavailable and the plain launch
itself aborted by an `ImportError`); a launch failure with any exception
other than `ImportError` is never converted into that message — it
propagates out of `handle_noargs` directly. -/
theorem C8_exhaustion_diagnostics (e : Env) (hnb : e.notebook = false)
    (hp : e.plain = false) (hi : e.ipython = false) (hb : e.bpython = false)
    (hok : reload_config_ok e = true) :
    ((Event.printedNoEnvError ∈ (handle_noargs e).trace) ↔
      (e.ipython_embed_available = false ∧ e.ipython_shell_available = false ∧
       e.bpython_available = false ∧
       (run_plain e (!e.no_pythonrc) 0).2 = some PyExc.importError)) ∧
    (Event.printedNoEnvError ∈ (handle_noargs e).trace →
      Event.printedTraceback ∈ (handle_noargs e).trace ∧
      (handle_noargs e).exc = none) ∧
    (∀ x, x ≠ PyExc.importError → (handle_noargs e).exc = some x →
      Event.printedNoEnvError ∉ (handle_noargs e).trace) := by
  rw [handle_noargs_explicit e hnb hok]
  simp only [hp, hi, hb, Bool.false_eq_true, if_false]
  by_cases h1 : e.ipython_embed_available
  · rw [default_loop_ipython_first e (!e.no_pythonrc) 0 (Or.inl h1)]
    by_cases har : auto_reload e <;> simp [har, h1]
  · by_cases h2 : e.ipython_shell_available
    · rw [default_loop_ipython_first e (!e.no_pythonrc) 0 (Or.inr h2)]
      by_cases har : auto_reload e <;> simp [har, h2]
    · by_cases h3 : e.bpython_available
      · rw [default_loop_bpython_second e (!e.no_pythonrc) 0
          (eq_false_of_ne_true h1) (eq_false_of_ne_true h2) h3]
        by_cases har : auto_reload e <;> simp [har, h3]
      · rw [default_loop_plain_last e (!e.no_pythonrc) 0
          (eq_false_of_ne_true h1) (eq_false_of_ne_true h2)
          (eq_false_of_ne_true h3)]
        have hnm := printed_not_mem_run_plain e (!e.no_pythonrc) 0
        by_cases h4 : (run_plain e (!e.no_pythonrc) 0).2 = some PyExc.importError
        · by_cases har : auto_reload e <;>
            simp [har, h4, eq_false_of_ne_true h1, eq_false_of_ne_true h2,
              eq_false_of_ne_true h3, hnm]
        · by_cases har : auto_reload e <;>
            simp [har, h4, hnm]

/-- Default mode, no front-end dependency importable, `PYTHONSTARTUP`
raising `ImportError`. -/
def envC8 : Env :=
  { env0 with pythonstartup := some "/rc.py", pythonstartup_isfile := true,
              pythonrc_raises := some PyExc.importError }

/-- Like `envC8` but the startup script raises a non-ImportError. -/
def envC8b : Env :=
  { envC8 with pythonrc_raises := some PyExc.otherError }

theorem C8_exhaustion_diagnostics_witness :
    (Event.printedNoEnvError ∈ (handle_noargs envC8).trace ∧
     Event.printedTraceback ∈ (handle_noargs envC8).trace ∧
     (handle_noargs envC8).exc = none) ∧
    ((handle_noargs envC8b).exc = some PyExc.otherError ∧
     Event.printedNoEnvError ∉ (handle_noargs envC8b).trace) := by
  obtain ⟨i8, m8, _⟩ := C8_exhaustion_diagnostics envC8 rfl rfl rfl rfl rfl
  obtain ⟨_, _, p8⟩ := C8_exhaustion_diagnostics envC8b rfl rfl rfl rfl rfl
  have hin : Event.printedNoEnvError ∈ (handle_noargs envC8).trace :=
    i8.mpr ⟨rfl, rfl, rfl, by decide⟩
  exact ⟨⟨hin, (m8 hin).1, (m8 hin).2⟩,
    ⟨by decide, p8 PyExc.otherError (by decide) (by decide)⟩⟩
